import Mathlib

/-!
Verification of the rate-query module (`internal/queries/rate.go`) of the
project-viewer repository.

The two SQL builders `createRateTradeQuery` and `createRateQuery` are embedded
as Lean functions over a structured list of SQL parts whose concatenation
reproduces, append by append, the string the Go code builds.  The executor
`RunRateQuery` is embedded with the warehouse client abstracted as a function
from SQL text to either a submission error or the finite list of row-decode
outcomes its cursor will emit.  Semantic readings of the generated `CASE`
expressions are given as Lean functions so that the orientation and
reciprocity properties can be stated about actual values.
-/

set_option maxRecDepth 20000

namespace ProjectViewer

/-- Modelled from the spec (section 3): `Asset` is defined elsewhere in the
repository (not under `src/`); it identifies a tradable asset by code and
issuer, with structural equality.  Field names follow the Go usage
`source.Code` / `source.Issuer` in `rate.go`. -/
structure Asset where
  Code : String
  Issuer : String
deriving DecidableEq

/-- Modelled from the spec (section 3): `RateResult` is defined elsewhere in
the repository (not under `src/`); one row per aggregation bucket, with a
nullable rate.  SQL numeric values are modelled as rationals. -/
structure RateResult where
  Title : String
  Rate : Option ℚ
deriving DecidableEq

/-- Modelled from the spec (section 6): the fixed, non-configurable row-limit
constant `queryLimit`, defined elsewhere in the repository (not under
`src/`).  The sample queries in the comments of `rate.go` show `LIMIT 100`. -/
def queryLimit : Nat := 100

/-- Modelled from the spec (section 4.1): the shared title/bucket formatter
`getTitleField`, defined elsewhere in the repository (not under `src/`).
`aggregateBy = "ledger"` labels rows with the ledger sequence (the sample
query in `rate.go` shows the exact `FORMAT` expression); any other value
labels rows with the close-at timestamp truncated to a calendar day. -/
def getTitleField (sequenceColumn closedAtColumn aggregateBy : String) : String :=
  if aggregateBy = "ledger" then
    "FORMAT(\"Ledger %d\", " ++ sequenceColumn ++ ") AS title"
  else
    "FORMAT_TIMESTAMP(\"%F\", TIMESTAMP_TRUNC(" ++ closedAtColumn ++ ", DAY)) AS title"

/-- The forward-orientation match predicate text of `createRateTradeQuery`
(`rate.go` lines 57-58): a disjunction of the single-leg checks
`B = source` and `C = dest`. -/
def baseAssetMatch (source dest : Asset) : String :=
  "((B.asset_code=\"" ++ source.Code ++ "\" AND B.asset_issuer=\"" ++ source.Issuer ++
    "\") OR (C.asset_code=\"" ++ dest.Code ++ "\" AND C.asset_issuer=\"" ++ dest.Issuer ++ "\"))"

/-- The forward-orientation rate select of `createRateTradeQuery`
(`rate.go` line 59). -/
def baseAssetSelect : String := "SUM(T.counter_amount)/SUM(T.base_amount)"

/-- The reverse-orientation match predicate text of `createRateTradeQuery`
(`rate.go` lines 64-65): a disjunction of the single-leg checks
`C = source` and `B = dest`. -/
def counterAssetMatch (source dest : Asset) : String :=
  "((C.asset_code=\"" ++ source.Code ++ "\" AND C.asset_issuer=\"" ++ source.Issuer ++
    "\") OR (B.asset_code=\"" ++ dest.Code ++ "\" AND B.asset_issuer=\"" ++ dest.Issuer ++ "\"))"

/-- The reverse-orientation rate select of `createRateTradeQuery`
(`rate.go` line 66). -/
def counterAssetSelect : String := "SUM(T.base_amount)/SUM(T.counter_amount)"

/-- The normal-orientation market match predicate of `createRateQuery`
(`rate.go` lines 109-110): all four legs must match. -/
def normalMatch (source dest : Asset) : String :=
  "(M.base_code=\"" ++ source.Code ++ "\" AND M.base_issuer=\"" ++ source.Issuer ++
    "\" AND M.counter_code=\"" ++ dest.Code ++ "\" AND M.counter_issuer=\"" ++ dest.Issuer ++ "\")"

/-- The reverse-orientation market match predicate of `createRateQuery`
(`rate.go` lines 111-112). -/
def reverseMatch (source dest : Asset) : String :=
  "(M.base_code=\"" ++ dest.Code ++ "\" AND M.base_issuer=\"" ++ dest.Issuer ++
    "\" AND M.counter_code=\"" ++ source.Code ++ "\" AND M.counter_issuer=\"" ++ source.Issuer ++ "\")"

/-- The mid-price expression of `createRateQuery` (`rate.go` line 131). -/
def rateCalculation : String :=
  "(orderbooks.askPrices[OFFSET(0)]+orderbooks.bidPrices[OFFSET(0)])/2"

/-- The final-stage base-equals-source condition of `createRateQuery`
(`rate.go` line 132). -/
def baseIsSource (source : Asset) : String :=
  "orderbooks.base_code=\"" ++ source.Code ++ "\" AND orderbooks.base_issuer=\"" ++ source.Issuer ++ "\""

/-- One appended piece of a generated query.  Each constructor mirrors one of
the `+=` appends of the Go builders; pieces with a distinguished role (the
ledger-close-time filter, the final null filter, the order/limit tail) are
tagged so that their presence can be counted. -/
inductive SqlPart where
  | lit (s : String)
  | timeFilter (startTs endTs : String)
  | notNullFilter (expr : String)
  | orderLimit (titleRef : String) (lim : Nat)
deriving DecidableEq

/-- The text each part contributes, exactly as the corresponding
`fmt.Sprintf` in `rate.go` produces it. -/
def SqlPart.render : SqlPart → String
  | .lit s => s
  | .timeFilter s e =>
      " AND L.closed_at BETWEEN TIMESTAMP_SECONDS(" ++ s ++ ") AND TIMESTAMP_SECONDS(" ++ e ++ ")"
  | .notNullFilter x => " WHERE " ++ x ++ " IS NOT NULL"
  | .orderLimit t n => " ORDER BY " ++ t ++ " ASC LIMIT " ++ toString n

/-- Recognises the ledger-close-time filter part. -/
def SqlPart.isTimeFilter : SqlPart → Bool
  | .timeFilter _ _ => true
  | _ => false

/-- Recognises the final null-filter part. -/
def SqlPart.isNotNullFilter : SqlPart → Bool
  | .notNullFilter _ => true
  | _ => false

/-- Concatenation of the rendered parts, mirroring the sequential `+=`
string building of the Go code. -/
def joinParts : List SqlPart → String
  | [] => ""
  | p :: ps => p.render ++ joinParts ps

/-- The parts of the query built by `createRateTradeQuery`
(`rate.go` lines 36-83), one list element per Go append (the final
`GROUP BY ... ORDER BY ... LIMIT` append is split into its group-by text and
the tagged order/limit tail, whose renderings concatenate to the same
string). -/
def tradeParts (source dest : Asset) (startUnixTimestamp endUnixTimestamp aggregateBy : String) :
    List SqlPart :=
  [SqlPart.lit ("SELECT " ++ getTitleField "L.sequence" "L.closed_at" aggregateBy ++
      ", CASE WHEN " ++ baseAssetMatch source dest ++ " THEN " ++ baseAssetSelect ++
      " WHEN " ++ counterAssetMatch source dest ++ " THEN " ++ counterAssetSelect ++
      " END AS rate,"),
   SqlPart.lit " FROM `crypto-stellar.crypto_stellar.history_trades` T",
   SqlPart.lit " JOIN `crypto-stellar.crypto_stellar.history_assets` B ON B.id=T.base_asset_id",
   SqlPart.lit " JOIN `crypto-stellar.crypto_stellar.history_assets` C ON C.id=T.counter_asset_id",
   SqlPart.lit " JOIN `crypto-stellar.crypto_stellar.history_ledgers` L ON L.closed_at=T.ledger_closed_at",
   SqlPart.lit (" WHERE (" ++ baseAssetMatch source dest ++ " OR " ++ counterAssetMatch source dest ++ ")")] ++
  (if startUnixTimestamp ≠ "" ∧ endUnixTimestamp ≠ "" then
      [SqlPart.timeFilter startUnixTimestamp endUnixTimestamp]
    else []) ++
  [SqlPart.lit " GROUP BY title, B.asset_code, B.asset_issuer, C.asset_code, C.asset_issuer",
   SqlPart.orderLimit "title" queryLimit]

/-- `createRateTradeQuery` (`rate.go` lines 36-83): the generated
trade-rate SQL text. -/
def createRateTradeQuery (source dest : Asset)
    (startUnixTimestamp endUnixTimestamp aggregateBy : String) : String :=
  joinParts (tradeParts source dest startUnixTimestamp endUnixTimestamp aggregateBy)

/-- The parts of the query built by `createRateQuery`
(`rate.go` lines 89-139), one list element per Go append. -/
def rateParts (source dest : Asset) (startUnixTimestamp endUnixTimestamp aggregateBy : String) :
    List SqlPart :=
  [SqlPart.lit "WITH orderbooks AS (",
   SqlPart.lit (" SELECT " ++ getTitleField "E.ledger_id" "L.closed_at" aggregateBy ++
      ", M.base_code, M.base_issuer, M.counter_code, M.counter_issuer,"),
   SqlPart.lit " ARRAY_AGG(CASE WHEN O.action=\"b\" THEN O.price END IGNORE NULLS ORDER BY O.price DESC) AS bidPrices,",
   SqlPart.lit " ARRAY_AGG(CASE WHEN O.action=\"s\" THEN O.price END IGNORE NULLS ORDER BY O.price ASC) AS askPrices,",
   SqlPart.lit " FROM `hubble-261722.liquidity_data.fact_offer_events` AS E",
   SqlPart.lit " INNER JOIN `hubble-261722.liquidity_data.dim_offers` O ON (E.offer_instance_id = O.dim_offer_id)",
   SqlPart.lit " INNER JOIN `hubble-261722.liquidity_data.dim_markets` M ON (M.market_id = O.market_id)",
   SqlPart.lit " INNER JOIN `hubble-261722.crypto_stellar_internal.history_ledgers` L ON (L.sequence = E.ledger_id)",
   SqlPart.lit (" WHERE (" ++ normalMatch source dest ++ " OR " ++ reverseMatch source dest ++ ")")] ++
  (if startUnixTimestamp ≠ "" ∧ endUnixTimestamp ≠ "" then
      [SqlPart.timeFilter startUnixTimestamp endUnixTimestamp]
    else []) ++
  [SqlPart.lit " GROUP by title, M.base_code, M.base_issuer, M.counter_code, M.counter_issuer)",
   SqlPart.lit (" SELECT orderbooks.title, CASE WHEN " ++ baseIsSource source ++ " THEN " ++
      rateCalculation ++ " ELSE 1/(" ++ rateCalculation ++ ") END AS rate FROM orderbooks"),
   SqlPart.notNullFilter rateCalculation,
   SqlPart.orderLimit "orderbooks.title" queryLimit]

/-- `createRateQuery` (`rate.go` lines 89-139): the generated orderbook-rate
SQL text. -/
def createRateQuery (source dest : Asset)
    (startUnixTimestamp endUnixTimestamp aggregateBy : String) : String :=
  joinParts (rateParts source dest startUnixTimestamp endUnixTimestamp aggregateBy)

/-- Modelled from the spec (sections 1 and 6): the warehouse client
capability consumed by the executor.  `runQuery` and the BigQuery client are
not under `src/`; a client maps the submitted SQL text to either a
submission error or the finite list of row-decode outcomes its cursor will
emit before signalling exhaustion. -/
def WarehouseClient : Type :=
  String → Except String (List (Except String RateResult))

/-- Modelled from the spec (section 4.4): `runQuery` submits the SQL text to
the warehouse client and yields a cursor or a submission error; it is not
under `src/`. -/
def runQuery (query : String) (client : WarehouseClient) :
    Except String (List (Except String RateResult)) :=
  client query

/-- The cursor-draining loop of `RunRateQuery` (`rate.go` lines 18-30):
rows are accumulated in emission order; the first decode failure aborts with
the Go error message and discards everything. -/
def drainResults : List (Except String RateResult) → Except String (List RateResult)
  | [] => .ok []
  | .error e :: _ => .error ("error parsing results from query: " ++ e)
  | .ok r :: rest =>
      match drainResults rest with
      | .error e => .error e
      | .ok rs => .ok (r :: rs)

/-- `RunRateQuery` (`rate.go` lines 11-31): builds the orderbook-rate SQL,
submits it, and drains the cursor; a submission failure is wrapped in the Go
error message that embeds the failed SQL text. -/
def RunRateQuery (source dest : Asset)
    (startUnixTimestamp endUnixTimestamp aggregateBy : String)
    (client : WarehouseClient) : Except String (List RateResult) :=
  let query := createRateQuery source dest startUnixTimestamp endUnixTimestamp aggregateBy
  match runQuery query client with
  | .error err => .error ("error running query \n" ++ query ++ "\n" ++ err)
  | .ok rows => drainResults rows

/-- Modelled from the spec (section 6): the analogous public trade-rate
entry point ("`computeTradeRates(source, dest, startTime, endTime,
aggregateBy, client)` and the analogous orderbook variant, both
synchronous"); it is not under `src/`.  It mirrors `RunRateQuery` with the
trade-rate builder. -/
def RunRateTradeQuery (source dest : Asset)
    (startUnixTimestamp endUnixTimestamp aggregateBy : String)
    (client : WarehouseClient) : Except String (List RateResult) :=
  let query := createRateTradeQuery source dest startUnixTimestamp endUnixTimestamp aggregateBy
  match runQuery query client with
  | .error err => .error ("error running query \n" ++ query ++ "\n" ++ err)
  | .ok rows => drainResults rows

/-- Semantic reading of the trade-rate `CASE` expression generated at
`rate.go` lines 69-70, evaluated on one `GROUP BY` bucket: `B`/`C` are the
bucket's stored base and counter legs and `sumBase`/`sumCounter` the
aggregated amounts.  The first branch guards with the disjunction
`baseAssetMatch`, the second with `counterAssetMatch`; a `CASE` with no
`ELSE` yields SQL `NULL`, modelled as `none`. -/
def tradeCaseRate (source dest B C : Asset) (sumBase sumCounter : ℚ) : Option ℚ :=
  if B = source ∨ C = dest then some (sumCounter / sumBase)
  else if C = source ∨ B = dest then some (sumBase / sumCounter)
  else none

/-- One bucket of the intermediate `orderbooks` stage of the SQL generated
by `createRateQuery` (`rate.go` lines 115-129): the grouped market legs and
the aggregated bid/ask price arrays (`OFFSET(0)` is the head). -/
structure OrderbookRow where
  title : String
  base_code : String
  base_issuer : String
  counter_code : String
  counter_issuer : String
  bidPrices : List ℚ
  askPrices : List ℚ
deriving DecidableEq

/-- Semantic reading of the mid-price expression `rateCalculation`
(`rate.go` line 131) with SQL null propagation: `NULL` unless both a best
ask and a best bid exist. -/
def midPrice (r : OrderbookRow) : Option ℚ :=
  match r.askPrices.head?, r.bidPrices.head? with
  | some a, some b => some ((a + b) / 2)
  | _, _ => none

/-- Semantic reading of the final `CASE` of `createRateQuery`
(`rate.go` line 135): mid-price when the stored base leg equals the
requested source, the reciprocal otherwise; `NULL` propagates through both
branches. -/
def orderbookRowRate (source : Asset) (r : OrderbookRow) : Option ℚ :=
  match midPrice r with
  | some m =>
      some (if r.base_code = source.Code ∧ r.base_issuer = source.Issuer then m else 1 / m)
  | none => none

/-- Semantic reading of the final `SELECT ... WHERE ... IS NOT NULL` stage of
`createRateQuery` (`rate.go` lines 135-136): buckets without a mid-price are
filtered out entirely; each surviving bucket yields its title and rate. -/
def orderbookFinalStage (source : Asset) (rows : List OrderbookRow) : List RateResult :=
  (rows.filter fun r => (midPrice r).isSome).map
    fun r => ⟨r.title, orderbookRowRate source r⟩

/-- Semantic reading of the first-stage market filter of `createRateQuery`
(`rate.go` line 123): the bucket's market legs are `(source, dest)` or
`(dest, source)`. -/
def MarketMatches (source dest : Asset) (r : OrderbookRow) : Prop :=
  (r.base_code = source.Code ∧ r.base_issuer = source.Issuer ∧
     r.counter_code = dest.Code ∧ r.counter_issuer = dest.Issuer) ∨
  (r.base_code = dest.Code ∧ r.base_issuer = dest.Issuer ∧
     r.counter_code = source.Code ∧ r.counter_issuer = source.Issuer)

/-- The source asset of the spec's end-to-end scenario (section 8). -/
def ngnt : Asset := ⟨"NGNT", "ISSUER_A"⟩

/-- The destination asset of the spec's end-to-end scenario (section 8). -/
def eurt : Asset := ⟨"EURT", "ISSUER_B"⟩

/-- Executable substring test on character lists, used to evaluate
containment facts about concrete generated queries. -/
def containsSub (pat : List Char) : List Char → Bool
  | [] => pat.isPrefixOf []
  | b :: l => pat.isPrefixOf (b :: l) || containsSub pat l

theorem containsSub_iff (pat l : List Char) : containsSub pat l = true ↔ pat <:+: l := by
  induction l with
  | nil => simp [containsSub, List.isPrefixOf_iff_prefix]
  | cons b l ih =>
      rw [containsSub, Bool.or_eq_true, List.isPrefixOf_iff_prefix, ih, List.infix_cons_iff]

theorem data_append (s t : String) : (s ++ t).data = s.data ++ t.data := rfl

theorem prefix_extend {x a : List Char} (b : List Char) (h : x <+: a) : x <+: a ++ b :=
  h.trans (List.prefix_append _ _)

theorem infix_extend_left {x b : List Char} (a : List Char) (h : x <:+: b) : x <:+: a ++ b := by
  obtain ⟨s, t, rfl⟩ := h
  exact ⟨a ++ s, t, by simp [List.append_assoc]⟩

theorem infix_extend_right {x a : List Char} (b : List Char) (h : x <:+: a) : x <:+: a ++ b := by
  obtain ⟨s, t, rfl⟩ := h
  exact ⟨s, t ++ b, by simp [List.append_assoc]⟩

theorem drainResults_map_ok (rows : List RateResult) :
    drainResults (rows.map Except.ok) = .ok rows := by
  induction rows with
  | nil => rfl
  | cons r rows ih => simp [drainResults, ih]

theorem drainResults_error_at (pre : List RateResult) (e : String)
    (post : List (Except String RateResult)) :
    drainResults (pre.map Except.ok ++ .error e :: post) =
      .error ("error parsing results from query: " ++ e) := by
  induction pre with
  | nil => rfl
  | cons r pre ih => simp [drainResults, ih]

/-- Each part's rendered text occurs inside the concatenated query. -/
theorem render_infix_of_mem {p : SqlPart} : ∀ {l : List SqlPart},
    p ∈ l → p.render.data <:+: (joinParts l).data
  | q :: l, h => by
      rw [joinParts, data_append]
      rcases List.mem_cons.mp h with h | h
      · subst h
        exact ((List.prefix_append _ _).isInfix)
      · exact infix_extend_left _ (render_infix_of_mem h)

/-- The last part's rendered text is a suffix of the concatenated query. -/
theorem render_suffix_last (A : List SqlPart) (p : SqlPart) :
    p.render.data <:+ (joinParts (A ++ [p])).data := by
  induction A with
  | nil => simp [joinParts, data_append]
  | cons q A ih =>
      rw [List.cons_append, joinParts, data_append]
      exact ih.trans (List.suffix_append _ _)

/-- **C1** (code bug): at the spec's end-to-end scenario input, the
forward-orientation predicate the trade builder emits is the single-leg
disjunction `(B = source) OR (C = dest)`; the generated SQL contains that
disjunction and does not contain the conjunctive two-leg predicate that the
claim (and the builder's own prose comment about assets mapping
source-to-base and dest-to-counter) requires; consequently a bucket whose
base leg is the source but whose counter leg is a third asset still
receives a rate from the forward branch. -/
theorem trade_forward_predicate_single_leg_disjunction :
    baseAssetMatch ngnt eurt =
      "((B.asset_code=\"NGNT\" AND B.asset_issuer=\"ISSUER_A\") OR (C.asset_code=\"EURT\" AND C.asset_issuer=\"ISSUER_B\"))" ∧
    (baseAssetMatch ngnt eurt).data <:+: (createRateTradeQuery ngnt eurt "1000" "2000" "ledger").data ∧
    ¬ ("(B.asset_code=\"NGNT\" AND B.asset_issuer=\"ISSUER_A\" AND C.asset_code=\"EURT\" AND C.asset_issuer=\"ISSUER_B\")".data
        <:+: (createRateTradeQuery ngnt eurt "1000" "2000" "ledger").data) ∧
    tradeCaseRate ngnt eurt ngnt ⟨"XLM", "ISSUER_C"⟩ 10 20 = some 2 := by
  refine ⟨rfl, ?_, ?_, ?_⟩
  · rw [← containsSub_iff]; rfl
  · rw [← containsSub_iff]; decide
  · rw [tradeCaseRate, if_pos (Or.inl rfl)]; norm_num

/-- **C4**: in both builders, when both time bounds are non-empty the parts
of the generated SQL contain exactly one ledger-close-time filter, built
from exactly the two supplied strings, and its rendering
`" AND L.closed_at BETWEEN TIMESTAMP_SECONDS(start) AND TIMESTAMP_SECONDS(end)"`
occurs in the generated SQL text; when either bound is the empty string the
parts contain no time-filter clause at all. -/
theorem time_filter_iff_both_bounds_nonempty (source dest : Asset) (st en ag : String) :
    ((st ≠ "" ∧ en ≠ "") →
      ((tradeParts source dest st en ag).countP SqlPart.isTimeFilter = 1 ∧
       (rateParts source dest st en ag).countP SqlPart.isTimeFilter = 1 ∧
       (SqlPart.timeFilter st en).render.data <:+: (createRateTradeQuery source dest st en ag).data ∧
       (SqlPart.timeFilter st en).render.data <:+: (createRateQuery source dest st en ag).data)) ∧
    ((st = "" ∨ en = "") →
      ((tradeParts source dest st en ag).countP SqlPart.isTimeFilter = 0 ∧
       (rateParts source dest st en ag).countP SqlPart.isTimeFilter = 0)) := by
  constructor
  · intro h
    refine ⟨?_, ?_, ?_, ?_⟩
    · simp [tradeParts, if_pos h, List.countP_append, List.countP_cons, SqlPart.isTimeFilter]
    · simp [rateParts, if_pos h, List.countP_append, List.countP_cons, SqlPart.isTimeFilter]
    · exact render_infix_of_mem (by simp [tradeParts, if_pos h])
    · exact render_infix_of_mem (by simp [rateParts, if_pos h])
  · intro h
    have hne : ¬ (st ≠ "" ∧ en ≠ "") := by tauto
    constructor
    · simp [tradeParts, if_neg hne, List.countP_append, List.countP_cons, SqlPart.isTimeFilter]
    · simp [rateParts, if_neg hne, List.countP_append, List.countP_cons, SqlPart.isTimeFilter]

/-- Witness for **C4** at the scenario bounds `"1000"`, `"2000"` and at the
mixed bounds `""`, `"2000"`. -/
theorem time_filter_iff_both_bounds_nonempty_witness :
    ((tradeParts ngnt eurt "1000" "2000" "ledger").countP SqlPart.isTimeFilter = 1 ∧
     (rateParts ngnt eurt "1000" "2000" "ledger").countP SqlPart.isTimeFilter = 1 ∧
     (SqlPart.timeFilter "1000" "2000").render.data <:+: (createRateTradeQuery ngnt eurt "1000" "2000" "ledger").data ∧
     (SqlPart.timeFilter "1000" "2000").render.data <:+: (createRateQuery ngnt eurt "1000" "2000" "ledger").data) ∧
    ((tradeParts ngnt eurt "" "2000" "ledger").countP SqlPart.isTimeFilter = 0 ∧
     (rateParts ngnt eurt "" "2000" "ledger").countP SqlPart.isTimeFilter = 0) :=
  ⟨(time_filter_iff_both_bounds_nonempty ngnt eurt "1000" "2000" "ledger").1
      ⟨by decide, by decide⟩,
   (time_filter_iff_both_bounds_nonempty ngnt eurt "" "2000" "ledger").2 (Or.inl rfl)⟩

/-- **C8**: for every input, both builders end the generated SQL with the
ascending order-by-title clause capped by the one fixed row-limit constant
`queryLimit`: the order/limit tail built from `queryLimit` is a part of
both queries and its rendering is a suffix of both generated SQL texts. -/
theorem order_by_title_asc_fixed_limit (source dest : Asset) (st en ag : String) :
    SqlPart.orderLimit "title" queryLimit ∈ tradeParts source dest st en ag ∧
    SqlPart.orderLimit "orderbooks.title" queryLimit ∈ rateParts source dest st en ag ∧
    (" ORDER BY title ASC LIMIT " ++ toString queryLimit).data <:+
      (createRateTradeQuery source dest st en ag).data ∧
    (" ORDER BY orderbooks.title ASC LIMIT " ++ toString queryLimit).data <:+
      (createRateQuery source dest st en ag).data := by
  refine ⟨by simp [tradeParts], by simp [rateParts], ?_, ?_⟩
  · have h : tradeParts source dest st en ag =
        (([SqlPart.lit ("SELECT " ++ getTitleField "L.sequence" "L.closed_at" ag ++
            ", CASE WHEN " ++ baseAssetMatch source dest ++ " THEN " ++ baseAssetSelect ++
            " WHEN " ++ counterAssetMatch source dest ++ " THEN " ++ counterAssetSelect ++
            " END AS rate,"),
          SqlPart.lit " FROM `crypto-stellar.crypto_stellar.history_trades` T",
          SqlPart.lit " JOIN `crypto-stellar.crypto_stellar.history_assets` B ON B.id=T.base_asset_id",
          SqlPart.lit " JOIN `crypto-stellar.crypto_stellar.history_assets` C ON C.id=T.counter_asset_id",
          SqlPart.lit " JOIN `crypto-stellar.crypto_stellar.history_ledgers` L ON L.closed_at=T.ledger_closed_at",
          SqlPart.lit (" WHERE (" ++ baseAssetMatch source dest ++ " OR " ++ counterAssetMatch source dest ++ ")")] ++
         (if st ≠ "" ∧ en ≠ "" then [SqlPart.timeFilter st en] else []) ++
         [SqlPart.lit " GROUP BY title, B.asset_code, B.asset_issuer, C.asset_code, C.asset_issuer"]) ++
        [SqlPart.orderLimit "title" queryLimit]) := by
      simp [tradeParts, List.append_assoc]
    have e : (" ORDER BY title ASC LIMIT " ++ toString queryLimit) =
        (SqlPart.orderLimit "title" queryLimit).render := rfl
    rw [createRateTradeQuery, h, e]
    exact render_suffix_last _ _
  · have h : rateParts source dest st en ag =
        (([SqlPart.lit "WITH orderbooks AS (",
          SqlPart.lit (" SELECT " ++ getTitleField "E.ledger_id" "L.closed_at" ag ++
            ", M.base_code, M.base_issuer, M.counter_code, M.counter_issuer,"),
          SqlPart.lit " ARRAY_AGG(CASE WHEN O.action=\"b\" THEN O.price END IGNORE NULLS ORDER BY O.price DESC) AS bidPrices,",
          SqlPart.lit " ARRAY_AGG(CASE WHEN O.action=\"s\" THEN O.price END IGNORE NULLS ORDER BY O.price ASC) AS askPrices,",
          SqlPart.lit " FROM `hubble-261722.liquidity_data.fact_offer_events` AS E",
          SqlPart.lit " INNER JOIN `hubble-261722.liquidity_data.dim_offers` O ON (E.offer_instance_id = O.dim_offer_id)",
          SqlPart.lit " INNER JOIN `hubble-261722.liquidity_data.dim_markets` M ON (M.market_id = O.market_id)",
          SqlPart.lit " INNER JOIN `hubble-261722.crypto_stellar_internal.history_ledgers` L ON (L.sequence = E.ledger_id)",
          SqlPart.lit (" WHERE (" ++ normalMatch source dest ++ " OR " ++ reverseMatch source dest ++ ")")] ++
         (if st ≠ "" ∧ en ≠ "" then [SqlPart.timeFilter st en] else []) ++
         [SqlPart.lit " GROUP by title, M.base_code, M.base_issuer, M.counter_code, M.counter_issuer)",
          SqlPart.lit (" SELECT orderbooks.title, CASE WHEN " ++ baseIsSource source ++ " THEN " ++
            rateCalculation ++ " ELSE 1/(" ++ rateCalculation ++ ") END AS rate FROM orderbooks"),
          SqlPart.notNullFilter rateCalculation]) ++
        [SqlPart.orderLimit "orderbooks.title" queryLimit]) := by
      simp [rateParts, List.append_assoc]
    have e : (" ORDER BY orderbooks.title ASC LIMIT " ++ toString queryLimit) =
        (SqlPart.orderLimit "orderbooks.title" queryLimit).render := rfl
    rw [createRateQuery, h, e]
    exact render_suffix_last _ _

/-- **C10**: both builders are total deterministic functions of their five
arguments alone — on any input, including degenerate ones, each produces a
well-formed SQL string (starting with its fixed first clause), and equal
arguments yield identical output strings. -/
theorem builders_total_deterministic (source dest : Asset) (st en ag : String)
    (s' d' : Asset) (st' en' ag' : String)
    (h1 : source = s') (h2 : dest = d') (h3 : st = st') (h4 : en = en') (h5 : ag = ag') :
    createRateTradeQuery source dest st en ag = createRateTradeQuery s' d' st' en' ag' ∧
    createRateQuery source dest st en ag = createRateQuery s' d' st' en' ag' ∧
    "SELECT ".data <+: (createRateTradeQuery source dest st en ag).data ∧
    "WITH orderbooks AS (".data <+: (createRateQuery source dest st en ag).data := by
  subst h1 h2 h3 h4 h5
  refine ⟨rfl, rfl, ?_, ?_⟩
  · simp only [createRateTradeQuery, tradeParts, List.cons_append, joinParts, SqlPart.render,
      data_append, List.append_assoc]
    exact List.prefix_append _ _
  · simp only [createRateQuery, rateParts, List.cons_append, joinParts, SqlPart.render,
      data_append, List.append_assoc]
    exact List.prefix_append _ _

/-- Witness for **C10** at a degenerate input: identical source and dest and
mixed empty/non-empty time bounds. -/
theorem builders_total_deterministic_witness :
    createRateTradeQuery ngnt ngnt "1000" "" "day" = createRateTradeQuery ngnt ngnt "1000" "" "day" ∧
    createRateQuery ngnt ngnt "1000" "" "day" = createRateQuery ngnt ngnt "1000" "" "day" ∧
    "SELECT ".data <+: (createRateTradeQuery ngnt ngnt "1000" "" "day").data ∧
    "WITH orderbooks AS (".data <+: (createRateQuery ngnt ngnt "1000" "" "day").data :=
  builders_total_deterministic ngnt ngnt "1000" "" "day" ngnt ngnt "1000" "" "day"
    rfl rfl rfl rfl rfl

/-- **C2**: for every input, the orderbook-rate SQL contains the final
`SELECT` whose `CASE` yields the mid-price when the stored base leg equals
`source` (code and issuer) and the reciprocal otherwise; and in the
semantic model of that final stage, every bucket with a best ask `a` and a
best bid `b` yields the rate `(a + b) / 2` when the base leg matches the
source and `1 / ((a + b) / 2)` otherwise. -/
theorem orderbook_rate_mid_price_or_reciprocal (source dest : Asset) (st en ag : String) :
    (" SELECT orderbooks.title, CASE WHEN " ++ baseIsSource source ++ " THEN " ++
        rateCalculation ++ " ELSE 1/(" ++ rateCalculation ++ ") END AS rate FROM orderbooks").data
      <:+: (createRateQuery source dest st en ag).data ∧
    (∀ (rows : List OrderbookRow) (r : OrderbookRow) (a b : ℚ),
      r ∈ rows → r.askPrices.head? = some a → r.bidPrices.head? = some b →
      (⟨r.title, some (if r.base_code = source.Code ∧ r.base_issuer = source.Issuer
          then (a + b) / 2 else 1 / ((a + b) / 2))⟩ : RateResult) ∈ orderbookFinalStage source rows) := by
  constructor
  · exact render_infix_of_mem (p := SqlPart.lit _) (by simp [rateParts])
  · intro rows r a b hr ha hb
    have hm : midPrice r = some ((a + b) / 2) := by rw [midPrice, ha, hb]
    have hfil : r ∈ rows.filter (fun r => (midPrice r).isSome) :=
      List.mem_filter.mpr ⟨hr, by rw [hm]; rfl⟩
    have hrate : orderbookRowRate source r =
        some (if r.base_code = source.Code ∧ r.base_issuer = source.Issuer
          then (a + b) / 2 else 1 / ((a + b) / 2)) := by
      rw [orderbookRowRate, hm]
    exact List.mem_map.mpr ⟨r, hfil, by rw [hrate]⟩

/-- Witness for **C2** on a bucket of the scenario market with best ask 4
and best bid 2. -/
theorem orderbook_rate_mid_price_or_reciprocal_witness :
    (⟨"Ledger 1", some (if ("NGNT" = ngnt.Code ∧ "ISSUER_A" = ngnt.Issuer)
        then ((4 : ℚ) + 2) / 2 else 1 / (((4 : ℚ) + 2) / 2))⟩ : RateResult) ∈
      orderbookFinalStage ngnt
        [⟨"Ledger 1", "NGNT", "ISSUER_A", "EURT", "ISSUER_B", [2], [4]⟩] :=
  (orderbook_rate_mid_price_or_reciprocal ngnt eurt "1000" "2000" "ledger").2
    [⟨"Ledger 1", "NGNT", "ISSUER_A", "EURT", "ISSUER_B", [2], [4]⟩]
    ⟨"Ledger 1", "NGNT", "ISSUER_A", "EURT", "ISSUER_B", [2], [4]⟩ 4 2
    (List.mem_singleton.mpr rfl) rfl rfl

/-- **C5**: for every input, the orderbook builder emits the final-stage
null filter on the mid-price expression (present among its parts, with its
`" WHERE ... IS NOT NULL"` text inside the generated SQL) while the trade
builder emits no null-filter part at all; semantically, a bucket lacking a
best ask or a best bid is dropped entirely from the orderbook final stage,
whereas a trade bucket matching neither `CASE` branch keeps a null rate. -/
theorem orderbook_filters_incomplete_buckets (source dest : Asset) (st en ag : String) :
    SqlPart.notNullFilter rateCalculation ∈ rateParts source dest st en ag ∧
    (SqlPart.notNullFilter rateCalculation).render.data <:+: (createRateQuery source dest st en ag).data ∧
    (tradeParts source dest st en ag).countP SqlPart.isNotNullFilter = 0 ∧
    (∀ (rows : List OrderbookRow) (r : OrderbookRow),
       r.askPrices.head? = none ∨ r.bidPrices.head? = none →
       orderbookFinalStage source (r :: rows) = orderbookFinalStage source rows) ∧
    (∀ (B C : Asset) (sumBase sumCounter : ℚ),
       ¬ (B = source ∨ C = dest) → ¬ (C = source ∨ B = dest) →
       tradeCaseRate source dest B C sumBase sumCounter = none) := by
  refine ⟨by simp [rateParts], render_infix_of_mem (by simp [rateParts]), ?_, ?_, ?_⟩
  · by_cases h : st ≠ "" ∧ en ≠ "" <;>
      simp [tradeParts, h, List.countP_append, List.countP_cons, SqlPart.isNotNullFilter]
  · intro rows r h
    have hm : midPrice r = none := by
      cases hask : r.askPrices.head? <;> cases hbid : r.bidPrices.head? <;>
        simp_all [midPrice]
    simp [orderbookFinalStage, List.filter_cons, hm]
  · intro B C sb sc h1 h2
    rw [tradeCaseRate, if_neg h1, if_neg h2]

/-- Witness for **C5**: a bucket with empty price arrays is dropped, and a
trade bucket between two unrelated assets gets a null rate. -/
theorem orderbook_filters_incomplete_buckets_witness :
    orderbookFinalStage ngnt [⟨"t", "x", "y", "z", "w", [], []⟩] = orderbookFinalStage ngnt [] ∧
    tradeCaseRate ngnt eurt ⟨"XLM", "I1"⟩ ⟨"BTC", "I2"⟩ 1 2 = none :=
  ⟨(orderbook_filters_incomplete_buckets ngnt eurt "1000" "2000" "ledger").2.2.2.1
      [] ⟨"t", "x", "y", "z", "w", [], []⟩ (Or.inl rfl),
   (orderbook_filters_incomplete_buckets ngnt eurt "1000" "2000" "ledger").2.2.2.2
      ⟨"XLM", "I1"⟩ ⟨"BTC", "I2"⟩ 1 2 (by decide) (by decide)⟩

/-- **C3**: the module exposes the two synchronous entry points, each taking
`(source, dest, startTime, endTime, aggregateBy, client)`: when the client
succeeds and all rows decode, each returns exactly the decoded rows in
order; when submission fails, each returns the error built around its own
builder's SQL — the trade entry point around the trade-rate SQL and the
orderbook entry point around the orderbook-rate SQL. -/
theorem two_public_entry_points (source dest : Asset) (st en ag : String)
    (rows : List RateResult) (cause : String) :
    RunRateTradeQuery source dest st en ag (fun _ => .ok (rows.map Except.ok)) = .ok rows ∧
    RunRateQuery source dest st en ag (fun _ => .ok (rows.map Except.ok)) = .ok rows ∧
    RunRateTradeQuery source dest st en ag (fun _ => .error cause) =
      .error ("error running query \n" ++ createRateTradeQuery source dest st en ag ++ "\n" ++ cause) ∧
    RunRateQuery source dest st en ag (fun _ => .error cause) =
      .error ("error running query \n" ++ createRateQuery source dest st en ag ++ "\n" ++ cause) := by
  refine ⟨?_, ?_, rfl, rfl⟩ <;>
    simp [RunRateTradeQuery, RunRateQuery, runQuery, drainResults_map_ok]

/-- **C6**: for every cursor, if every emitted row decodes, the executor
returns exactly the decoded rows in emission order with no error; if a row
fails to decode mid-iteration, the executor returns the decode error and no
(partial) result sequence. -/
theorem executor_all_rows_or_error (source dest : Asset) (st en ag : String)
    (outcomes : List (Except String RateResult)) (rows pre : List RateResult)
    (e : String) (post : List (Except String RateResult)) :
    (outcomes = rows.map Except.ok →
       RunRateQuery source dest st en ag (fun _ => .ok outcomes) = .ok rows) ∧
    (outcomes = pre.map Except.ok ++ .error e :: post →
       RunRateQuery source dest st en ag (fun _ => .ok outcomes) =
         .error ("error parsing results from query: " ++ e)) := by
  constructor
  · rintro rfl
    simp [RunRateQuery, runQuery, drainResults_map_ok]
  · rintro rfl
    simp [RunRateQuery, runQuery, drainResults_error_at]

/-- Witness for **C6**: a 3-row cursor yields the 3 rows in order; a cursor
failing on row 2 yields the decode error, not a 1-element sequence. -/
theorem executor_all_rows_or_error_witness :
    RunRateQuery ngnt eurt "1000" "2000" "ledger"
      (fun _ => .ok ([⟨"a", some 1⟩, ⟨"b", none⟩, ⟨"c", some 3⟩].map Except.ok)) =
      .ok [⟨"a", some 1⟩, ⟨"b", none⟩, ⟨"c", some 3⟩] ∧
    RunRateQuery ngnt eurt "1000" "2000" "ledger"
      (fun _ => .ok ([⟨"a", some 1⟩].map Except.ok ++ .error "boom" :: [.ok ⟨"c", none⟩])) =
      .error ("error parsing results from query: " ++ "boom") :=
  ⟨(executor_all_rows_or_error ngnt eurt "1000" "2000" "ledger"
      ([⟨"a", some 1⟩, ⟨"b", none⟩, ⟨"c", some 3⟩].map Except.ok)
      [⟨"a", some 1⟩, ⟨"b", none⟩, ⟨"c", some 3⟩] [] "" []).1 rfl,
   (executor_all_rows_or_error ngnt eurt "1000" "2000" "ledger"
      ([⟨"a", some 1⟩].map Except.ok ++ .error "boom" :: [.ok ⟨"c", none⟩])
      [] [⟨"a", some 1⟩] "boom" [.ok ⟨"c", none⟩]).2 rfl⟩

/-- **C9**: on submission failure the entry point returns an error whose
message embeds the full failed SQL text and the cause; the decode-stage
error message is built from the cause alone and is identical for any two
argument tuples — it does not carry the SQL text. -/
theorem execute_error_carries_sql_decode_error_does_not
    (source dest s2 d2 : Asset) (st en ag st2 en2 ag2 cause : String)
    (pre : List RateResult) (post : List (Except String RateResult)) :
    RunRateQuery source dest st en ag (fun _ => .error cause) =
      .error ("error running query \n" ++ createRateQuery source dest st en ag ++ "\n" ++ cause) ∧
    (createRateQuery source dest st en ag).data <:+:
      ("error running query \n" ++ createRateQuery source dest st en ag ++ "\n" ++ cause).data ∧
    cause.data <:+:
      ("error running query \n" ++ createRateQuery source dest st en ag ++ "\n" ++ cause).data ∧
    RunRateQuery source dest st en ag (fun _ => .ok (pre.map Except.ok ++ .error cause :: post)) =
      .error ("error parsing results from query: " ++ cause) ∧
    RunRateQuery s2 d2 st2 en2 ag2 (fun _ => .ok (pre.map Except.ok ++ .error cause :: post)) =
      .error ("error parsing results from query: " ++ cause) := by
  refine ⟨rfl, ?_, ?_, ?_, ?_⟩
  · simp only [data_append]
    exact infix_extend_right _ (infix_extend_right _ ((List.suffix_append _ _).isInfix))
  · simp only [data_append, List.append_assoc]
    exact infix_extend_left _ (infix_extend_left _ ((List.suffix_append _ _).isInfix))
  · simp [RunRateQuery, runQuery, drainResults_error_at]
  · simp [RunRateQuery, runQuery, drainResults_error_at]

/-- Counterexample to **C7** as stated: the swapped trade call's forward
predicate is not textually "exactly" the original's reverse predicate (the
disjuncts come in the other order), and for a matching degenerate bucket
whose stored base and counter legs are the same asset both query directions
produce the same rate 2, which is not the reciprocal of 2. -/
theorem swap_reciprocal_counterexample :
    baseAssetMatch eurt ngnt ≠ counterAssetMatch ngnt eurt ∧
    tradeCaseRate ngnt eurt ngnt ngnt 1 2 = some 2 ∧
    tradeCaseRate eurt ngnt ngnt ngnt 1 2 = some 2 ∧
    ((2 : ℚ)⁻¹ ≠ 2) := by
  refine ⟨by decide, ?_, ?_, by norm_num⟩
  · rw [tradeCaseRate, if_pos (Or.inl rfl)]; norm_num
  · rw [tradeCaseRate, if_pos (Or.inr rfl)]; norm_num

/-- **C7** (amended): for distinct assets, swapping source and dest
exchanges the orderbook market predicates textually exactly and the trade
orientation predicates semantically (up to disjunct order); consequently,
for every trade bucket whose two stored legs are distinct assets the
swapped rate is the reciprocal of the original, and likewise for every
orderbook bucket whose market is the requested pair in either orientation. -/
theorem swap_source_dest_reciprocal_amended (s d : Asset) (hsd : s ≠ d) :
    (normalMatch d s = reverseMatch s d ∧ reverseMatch d s = normalMatch s d) ∧
    (∀ B C : Asset, (B = d ∨ C = s) ↔ (C = s ∨ B = d)) ∧
    (∀ (B C : Asset) (sumBase sumCounter : ℚ), B ≠ C →
       tradeCaseRate d s B C sumBase sumCounter =
         (tradeCaseRate s d B C sumBase sumCounter).map (·⁻¹)) ∧
    (∀ r : OrderbookRow, MarketMatches s d r →
       orderbookRowRate d r = (orderbookRowRate s r).map (·⁻¹)) := by
  refine ⟨⟨rfl, rfl⟩, fun B C => or_comm, ?_, ?_⟩
  · intro B C sb sc hBC
    by_cases hBs : B = s <;> by_cases hCd : C = d <;>
      by_cases hCs : C = s <;> by_cases hBd : B = d <;>
        simp_all [tradeCaseRate, inv_div, one_div]
  · intro r hm
    rcases hm with ⟨h1, h2, h3, h4⟩ | ⟨h1, h2, h3, h4⟩
    · have hbd : ¬ (r.base_code = d.Code ∧ r.base_issuer = d.Issuer) := by
        rintro ⟨hd1, hd2⟩
        exact hsd (by cases s; cases d; simp_all)
      rw [orderbookRowRate, orderbookRowRate]
      cases hmp : midPrice r with
      | none => simp
      | some m => simp [if_pos (And.intro h1 h2), if_neg hbd, one_div]
    · have hbs : ¬ (r.base_code = s.Code ∧ r.base_issuer = s.Issuer) := by
        rintro ⟨hs1, hs2⟩
        exact hsd (by cases s; cases d; simp_all)
      rw [orderbookRowRate, orderbookRowRate]
      cases hmp : midPrice r with
      | none => simp
      | some m => simp [if_pos (And.intro h1 h2), if_neg hbs, one_div]

/-- Witness for amended **C7**: concrete reciprocal rates for a trade bucket
with distinct legs and for an orderbook bucket of the scenario market. -/
theorem swap_source_dest_reciprocal_amended_witness :
    tradeCaseRate eurt ngnt ngnt eurt 2 3 = (tradeCaseRate ngnt eurt ngnt eurt 2 3).map (·⁻¹) ∧
    orderbookRowRate eurt ⟨"Ledger 1", "NGNT", "ISSUER_A", "EURT", "ISSUER_B", [2], [4]⟩ =
      (orderbookRowRate ngnt ⟨"Ledger 1", "NGNT", "ISSUER_A", "EURT", "ISSUER_B", [2], [4]⟩).map (·⁻¹) :=
  ⟨(swap_source_dest_reciprocal_amended ngnt eurt (by decide)).2.2.1 ngnt eurt 2 3 (by decide),
   (swap_source_dest_reciprocal_amended ngnt eurt (by decide)).2.2.2
     ⟨"Ledger 1", "NGNT", "ISSUER_A", "EURT", "ISSUER_B", [2], [4]⟩
     (Or.inl ⟨rfl, rfl, rfl, rfl⟩)⟩

end ProjectViewer
